import Mathlib

/-!
Verification development for the ltl-driver-management import scripts
(`server/scripts/import-carriers.py`, `server/scripts/import-routes.py`,
`server/scripts/import-location-addresses.py`).

The scripts stream spreadsheet rows, normalize cells with pure helper
functions, and issue inserts against a PostgreSQL database.  We embed the
row-processing logic shallowly:

* a spreadsheet cell is `Cell`: absent/NaN (`null`), text (`str`) or a
  number (`num`, modelled as `Int`; spreadsheet numerics are floats whose
  magnitude never matters to the properties below, so the fractional part
  is abstracted away);
* pandas `pd.isna` is true exactly on `null`;
* Python `str()`, `.strip()`, `.upper()`, `int()`, `float()`, `bool()` are
  modelled on this cell type (ASCII whitespace/digits; exponent notation
  omitted from the `float()` model — no property below depends on the
  exact parse boundary, only on null vs. coercible vs. raising);
* the database is a list of records; the carrier insert models the
  PostgreSQL statement `INSERT ... ON CONFLICT ("mcNumber") DO NOTHING`
  over a unique index on `mcNumber`, where NULL key values never conflict
  (PostgreSQL's default NULLS DISTINCT behaviour);
* `pd.to_datetime` (used only in the fallback branch of
  `clean_time_string`) is an external parser, taken as a parameter.
-/

namespace LtlImport

/-- A loosely-typed spreadsheet cell as handed to the import scripts by
`pandas.DataFrame.iterrows`: absent/NaN, text, or numeric. -/
inductive Cell where
  | null : Cell
  | str (s : String) : Cell
  | num (n : Int) : Cell
deriving DecidableEq, Repr

/-- `pd.isna` on a cell. -/
def Cell.isna : Cell → Bool
  | Cell.null => true
  | _ => false

/-- Python `str()` applied to a cell (`str(nan) = "nan"`; every caller in
the scripts guards with `pd.isna` first, so the `null` case is inert). -/
def pyStr : Cell → String
  | Cell.null => "nan"
  | Cell.str s => s
  | Cell.num n => toString n

/-- ASCII whitespace, the character class stripped by Python `str.strip()`
on the inputs these scripts see. -/
def isSpaceChar (c : Char) : Bool :=
  c = ' ' || c = '\t' || c = '\n' || c = '\r' || c = Char.ofNat 11 || c = Char.ofNat 12

/-- `str.strip()` on a character list: drop whitespace on both ends. -/
def trimList (l : List Char) : List Char :=
  ((l.dropWhile isSpaceChar).reverse.dropWhile isSpaceChar).reverse

/-- Python `str.strip()`. -/
def pyStrip (s : String) : String :=
  String.mk (trimList s.data)

/-- Python `str.upper()` (ASCII model). -/
def pyUpper (s : String) : String :=
  String.mk (s.data.map Char.toUpper)

/-- `isPrefixListChar pat l` : `pat` occurs at the front of `l`. -/
def isPrefixListChar : List Char → List Char → Bool
  | [], _ => true
  | _ :: _, [] => false
  | a :: as, b :: bs => a = b && isPrefixListChar as bs

/-- `containsSub pat l` : Python's `pat in l` substring test. -/
def containsSub (pat : List Char) : List Char → Bool
  | [] => isPrefixListChar pat []
  | c :: rest => isPrefixListChar pat (c :: rest) || containsSub pat rest

/-- Decimal value of a nonempty all-digit character list (`none` otherwise). -/
def parseDigits (l : List Char) : Option Nat :=
  if l ≠ [] ∧ l.all Char.isDigit then
    some (l.foldl (fun acc c => acc * 10 + (c.toNat - 48)) 0)
  else none

/-- Python `int(s)` on a string: strip, optional sign, nonempty digit run;
anything else raises (`none`). -/
def parsePyInt (s : String) : Option Int :=
  match trimList s.data with
  | '-' :: ds => (parseDigits ds).map (fun n => -(n : Int))
  | '+' :: ds => (parseDigits ds).map (fun n => (n : Int))
  | ds => (parseDigits ds).map (fun n => (n : Int))

/-- Python `int(x)` on a cell: numbers truncate to their integer value
(already an `Int` in this model), strings parse strictly, `null` raises. -/
def intOfCell : Cell → Option Int
  | Cell.null => none
  | Cell.num n => some n
  | Cell.str s => parsePyInt s

/-- Python `float(s)` on a string, reduced to what the properties need:
strip, optional sign, decimal digits with an optional single point
(`"12"`, `"12.5"`, `".5"`, `"12."`); the returned value is the integer
part (magnitude is never inspected by the pipeline).  Anything else
raises (`none`). -/
def parsePyFloat (s : String) : Option Int :=
  let core : List Char → Option Int := fun l =>
    let intPart := l.takeWhile Char.isDigit
    match l.dropWhile Char.isDigit with
    | [] => (parseDigits intPart).map (fun n => (n : Int))
    | '.' :: frac =>
        if frac.all Char.isDigit ∧ (intPart ≠ [] ∨ frac ≠ []) then
          some ((intPart.foldl (fun acc c => acc * 10 + (c.toNat - 48)) 0 : Nat) : Int)
        else none
    | _ => none
  match trimList s.data with
  | '-' :: ds => (core ds).map (fun n => -n)
  | '+' :: ds => core ds
  | ds => core ds

/-- Python `float(x)` on a cell (`null` raises; callers guard with
`pd.notna`). -/
def floatOfCell : Cell → Option Int
  | Cell.null => none
  | Cell.num n => some n
  | Cell.str s => parsePyFloat s

/-- Python `bool(x)` truthiness of a cell (NaN is a truthy float). -/
def boolOfCell : Cell → Bool
  | Cell.null => true
  | Cell.num n => n ≠ 0
  | Cell.str s => s ≠ ""

/-! ## Field normalizers of `import-carriers.py` -/

/-- `clean_string` (import-carriers.py:29-33): `None` for a NaN cell,
otherwise the stripped text if nonempty, else `None`. -/
def clean_string (c : Cell) : Option String :=
  match c with
  | Cell.null => none
  | c =>
      let t := pyStrip (pyStr c)
      if t = "" then none else some t

/-- The `(XXX) XXX-XXXX` layout of `clean_phone`, as in the f-string
`f"({p[:3]}) {p[3:6]}-{p[6:]}"`. -/
def fmt10 (d : List Char) : String :=
  "(" ++ String.mk (d.take 3) ++ ") " ++ String.mk ((d.drop 3).take 3)
    ++ "-" ++ String.mk (d.drop 6)

/-- `clean_phone` (import-carriers.py:11-27): strip non-digits; a
10-digit residue is formatted `(XXX) XXX-XXXX`; an 11-digit residue with
leading `1` drops it and formats the tail; otherwise the raw digit
residue, or `None` when the residue is empty or the cell is NaN. -/
def clean_phone (c : Cell) : Option String :=
  match c with
  | Cell.null => none
  | c =>
      let d := (pyStr c).data.filter Char.isDigit
      if d.length = 10 then some (fmt10 d)
      else if d.length = 11 ∧ d.head? = some '1' then some (fmt10 d.tail)
      else if d = [] then none else some (String.mk d)

/-- `map_status` (import-carriers.py:35-46): NaN maps to `PENDING`;
otherwise strip+uppercase, test the substring `NOT ONBOARDED` first,
then `ONBOARDED`, defaulting to `PENDING`. -/
def map_status (c : Cell) : String :=
  match c with
  | Cell.null => "PENDING"
  | c =>
      let status_clean := pyUpper (pyStrip (pyStr c))
      if containsSub ("NOT ONBOARDED").data status_clean.data then "NOT_ONBOARDED"
      else if containsSub ("ONBOARDED").data status_clean.data then "ONBOARDED"
      else "PENDING"

/-! ## The carrier pipeline (`import-carriers.py`, `main`) -/

/-- A persisted row of the `carriers` table, with the columns the script
writes (the two wall-clock timestamp columns are external to the
row-processing logic and omitted). -/
structure CarrierRecord where
  name : String
  contactPerson : Option String
  phone : Option String
  email : Option String
  mcNumber : Option String
  dotNumber : Option String
  status : String
  safetyRating : Option String
  taxId : Option String
  carrierType : Option String
  streetAddress1 : Option String
  streetAddress2 : Option String
  city : Option String
  state : Option String
  zipCode : Option String
  remittanceContact : Option String
  remittanceEmail : Option String
  factoringCompany : Option String
  onboardingComplete : Bool
deriving DecidableEq, Repr

/-- A raw spreadsheet row of the carrier source, one field per column the
script reads (import-carriers.py:97-121). -/
structure CarrierRawRow where
  carrierName : Cell
  primaryContact : Cell
  phone : Cell
  primaryEmail : Cell
  mcNumber : Cell
  dotNumber : Cell
  status : Cell
  safetyRating : Cell
  taxId : Cell
  carrierType : Cell
  streetAddress1 : Cell
  streetAddress2 : Cell
  city : Cell
  st : Cell
  zip : Cell
  remittanceContact : Cell
  remittanceEmail : Cell
  factoringCompany : Cell
deriving DecidableEq, Repr

/-- Lines 104-105: `clean_string(str(int(cell))) if pd.notna(cell) else
None`.  Outer `none` = the `int()` coercion raised (caught by the row's
exception handler); `some v` = the computed field value. -/
def normIdNumber (c : Cell) : Option (Option String) :=
  match c with
  | Cell.null => some none
  | c =>
      match intOfCell c with
      | none => none
      | some n => some (clean_string (Cell.str (toString n)))

/-- Outcome of the row body (lines 95-132) for one raw row: `skipped` =
a `continue` was taken before the insert, `failed` = an exception was
caught by the row-level handler, `valid` = the row reached
`cursor.execute` with the given record. -/
inductive CarrierRowResult where
  | skipped : CarrierRowResult
  | failed : CarrierRowResult
  | valid (c : CarrierRecord) : CarrierRowResult
deriving DecidableEq, Repr

/-- The row body of `main` (import-carriers.py:95-132): skip on a missing
name, normalize fields, fail on an `int()` coercion error, skip when both
identifiers are absent, otherwise build the record handed to the insert. -/
def normCarrierRow (r : CarrierRawRow) : CarrierRowResult :=
  match clean_string r.carrierName with
  | none => CarrierRowResult.skipped
  | some name =>
      let contact_person := clean_string r.primaryContact
      let phone := clean_phone r.phone
      let email := clean_string r.primaryEmail
      match normIdNumber r.mcNumber with
      | none => CarrierRowResult.failed
      | some mc_number =>
          match normIdNumber r.dotNumber with
          | none => CarrierRowResult.failed
          | some dot_number =>
              if mc_number = none ∧ dot_number = none then CarrierRowResult.skipped
              else
                let status := map_status r.status
                CarrierRowResult.valid
                  { name := name
                    contactPerson := contact_person
                    phone := phone
                    email := email
                    mcNumber := mc_number
                    dotNumber := dot_number
                    status := status
                    safetyRating := clean_string r.safetyRating
                    taxId := clean_string r.taxId
                    carrierType := clean_string r.carrierType
                    streetAddress1 := clean_string r.streetAddress1
                    streetAddress2 := clean_string r.streetAddress2
                    city := clean_string r.city
                    state := clean_string r.st
                    zipCode := clean_string r.zip
                    remittanceContact := clean_string r.remittanceContact
                    remittanceEmail := clean_string r.remittanceEmail
                    factoringCompany := clean_string r.factoringCompany
                    onboardingComplete := status = "ONBOARDED" }

/-- `mcPresent t m` : some row of the table carries conflict-key value
`m` in its `mcNumber` column. -/
def mcPresent (t : List CarrierRecord) (m : String) : Bool :=
  t.any (fun c => c.mcNumber = some m)

/-- `INSERT ... ON CONFLICT ("mcNumber") DO NOTHING`
(import-carriers.py:80-89) against a unique index on `mcNumber`:
a non-NULL key equal to an existing row's key is silently absorbed;
a NULL key never conflicts (PostgreSQL NULLS DISTINCT) and always
appends. -/
def insertCarrier (t : List CarrierRecord) (c : CarrierRecord) : List CarrierRecord :=
  match c.mcNumber with
  | none => t ++ [c]
  | some m => if mcPresent t m then t else t ++ [c]

/-- The run's mutable state: the (uncommitted) `carriers` table plus the
`successful_inserts` / `failed_inserts` counters of lines 91-92. -/
structure CarrierRunState where
  table : List CarrierRecord
  succeeded : Nat
  failed : Nat
deriving DecidableEq, Repr

/-- One loop iteration (lines 94-142): a skip leaves the state alone, a
caught exception bumps `failed_inserts`, a row reaching
`cursor.execute` bumps `successful_inserts` whether or not the insert
was absorbed by the conflict policy. -/
def carrierStep (st : CarrierRunState) (r : CarrierRawRow) : CarrierRunState :=
  match normCarrierRow r with
  | CarrierRowResult.skipped => st
  | CarrierRowResult.failed => { st with failed := st.failed + 1 }
  | CarrierRowResult.valid c =>
      { st with table := insertCarrier st.table c, succeeded := st.succeeded + 1 }

/-- Fold the loop over the remaining rows from an intermediate state. -/
def carrierRunFrom (st : CarrierRunState) (rows : List CarrierRawRow) : CarrierRunState :=
  rows.foldl carrierStep st

/-- A whole carrier import run over a source `rows`, starting from prior
table contents `t` (the script never clears the table; the delete is
commented out at lines 71-77). -/
def runCarrierImport (t : List CarrierRecord) (rows : List CarrierRawRow) : CarrierRunState :=
  carrierRunFrom { table := t, succeeded := 0, failed := 0 } rows

/-! ## The route pipeline (`import-routes.py`) -/

/-- Zero-padded two-digit rendering, as in `strftime` field `%H` etc. -/
def fmt2 (n : Nat) : String :=
  if n < 10 then "0" ++ toString n else toString n

/-- Try to match `\d{2}:\d{2}:\d{2}` at the front of the list. -/
def timeTokenAt (l : List Char) : Option (List Char) :=
  match l with
  | d1 :: d2 :: c1 :: d3 :: d4 :: c2 :: d5 :: d6 :: _ =>
      if d1.isDigit ∧ d2.isDigit ∧ c1 = ':' ∧ d3.isDigit ∧ d4.isDigit
          ∧ c2 = ':' ∧ d5.isDigit ∧ d6.isDigit then
        some [d1, d2, ':', d3, d4, ':', d5, d6]
      else none
  | _ => none

/-- `re.search(r'(\d{2}:\d{2}:\d{2})', s)` : the leftmost match of the
time pattern. -/
def findTimeToken : List Char → Option (List Char)
  | [] => none
  | c :: rest =>
      match timeTokenAt (c :: rest) with
      | some tok => some tok
      | none => findTimeToken rest

/-- `clean_time_string` (import-routes.py:11-40), parameterized by the
external `pd.to_datetime` parser (`parse s = some (h, m, sec)` when the
library parses `s`, `none` when it raises).  NaN cells give `None`; a
text containing `1900-01-01` returns the leftmost `HH:MM:SS` token if
one exists; otherwise three colon-separated parts pass through
unchanged, two parts get `:00` appended, and anything else goes to the
parser, falling back to the original text. -/
def clean_time_string (parse : String → Option (Nat × Nat × Nat)) (c : Cell) : Option String :=
  match c with
  | Cell.null => none
  | c =>
      let s := pyStr c
      let regexHit : Option String :=
        if containsSub ("1900-01-01").data s.data then
          (findTimeToken s.data).map String.mk
        else none
      match regexHit with
      | some tok => some tok
      | none =>
          let viaParse : Option String :=
            match parse s with
            | some (h, m, sec) => some (fmt2 h ++ ":" ++ fmt2 m ++ ":" ++ fmt2 sec)
            | none => some s
          if s.data.contains ':' then
            if s.data.count ':' + 1 = 3 then some s
            else if s.data.count ':' + 1 = 2 then some (s ++ ":00")
            else viaParse
          else viaParse

/-- A persisted row of the `routes` table as written by the script
(timestamps again omitted; `distance` and `miles` receive the same
coerced value). -/
structure RouteRecord where
  name : Cell
  origin : Cell
  destination : Cell
  distance : Int
  miles : Int
  active : Bool
  departureTime : Option String
  arrivalTime : Option String
deriving DecidableEq, Repr

/-- A raw spreadsheet row of the route source (import-routes.py:85-93). -/
structure RouteRawRow where
  name : Cell
  orig : Cell
  dest : Cell
  miles : Cell
  active : Cell
  departTime : Cell
  arriveTime : Cell
deriving DecidableEq, Repr

/-- Line 88: `float(row['Miles']) if pd.notna(row['Miles']) else None`.
Outer `none` = `float()` raised; `some none` = a NaN cell left as
`None`; `some (some v)` = a coerced value. -/
def normMiles (c : Cell) : Option (Option Int) :=
  match c with
  | Cell.null => some none
  | c =>
      match floatOfCell c with
      | none => none
      | some v => some (some v)

/-- Outcome of the route loop body for one raw row. -/
inductive RouteRowResult where
  | skipped : RouteRowResult
  | failed : RouteRowResult
  | valid (c : RouteRecord) : RouteRowResult
deriving DecidableEq, Repr

/-- The row body of `main` (import-routes.py:83-105): fail when the
`Miles` coercion raises, normalize the booleans and times, skip (the
`continue` at line 97) when miles is `None`, otherwise build the record
handed to the insert with `distance = miles`. -/
def normRouteRow (parse : String → Option (Nat × Nat × Nat)) (r : RouteRawRow) : RouteRowResult :=
  match normMiles r.miles with
  | none => RouteRowResult.failed
  | some milesOpt =>
      let active := boolOfCell r.active
      let departure_time := clean_time_string parse r.departTime
      let arrival_time := clean_time_string parse r.arriveTime
      match milesOpt with
      | none => RouteRowResult.skipped
      | some m =>
          RouteRowResult.valid
            { name := r.name
              origin := r.orig
              destination := r.dest
              distance := m
              miles := m
              active := active
              departureTime := departure_time
              arrivalTime := arrival_time }

/-- Route run state: the (uncommitted) `routes` table, the two explicit
counters of lines 79-80, and the count of rows taken through the
`continue` at line 97 (the run's skipped rows). -/
structure RouteRunState where
  table : List RouteRecord
  succeeded : Nat
  failed : Nat
  skipped : Nat
deriving DecidableEq, Repr

/-- One loop iteration (lines 82-112); the `routes` insert has no
conflict policy, so a valid row always appends. -/
def routeStep (parse : String → Option (Nat × Nat × Nat))
    (st : RouteRunState) (r : RouteRawRow) : RouteRunState :=
  match normRouteRow parse r with
  | RouteRowResult.skipped => { st with skipped := st.skipped + 1 }
  | RouteRowResult.failed => { st with failed := st.failed + 1 }
  | RouteRowResult.valid c =>
      { st with table := st.table ++ [c], succeeded := st.succeeded + 1 }

/-- Fold the route loop over the remaining rows from an intermediate
state. -/
def routeRunFrom (parse : String → Option (Nat × Nat × Nat))
    (st : RouteRunState) (rows : List RouteRawRow) : RouteRunState :=
  rows.foldl (routeStep parse) st

/-- A whole route import run: `DELETE FROM routes` (lines 66-71) clears
the prior contents `priorTable` (which therefore never reaches the
fold), then the loop runs over the source rows starting from the empty
table. -/
def runRouteImport (parse : String → Option (Nat × Nat × Nat))
    (priorTable : List RouteRecord) (rows : List RouteRawRow) : RouteRunState :=
  let _cleared : List RouteRecord := priorTable.filter (fun _ => false)
  routeRunFrom parse { table := _cleared, succeeded := 0, failed := 0, skipped := 0 } rows

/-! ## The enrichment SQL generator (`import-location-addresses.py`) -/

/-- The single-quote character, written by code point to keep the SQL
text readable in this file. -/
def sqChar : Char := Char.ofNat 39

/-- The single-quote as a one-character string. -/
def sq : String := String.mk [sqChar]

/-- Python `value.replace(sq, sq+sq)` on the character list: double every
single quote. -/
def escapeList : List Char → List Char
  | [] => []
  | c :: rest =>
      if c = sqChar then c :: c :: escapeList rest else c :: escapeList rest

/-- The quote-doubling applied to the four address fields
(import-location-addresses.py:80-83, 91-94). -/
def escapeQuotes (s : String) : String :=
  String.mk (escapeList s.data)

/-- The address fields stored under one location key
(import-location-addresses.py:58-63). -/
structure AddressInfo where
  address : String
  city : String
  state : String
  zipcode : String
deriving DecidableEq, Repr

/-- The origin-side UPDATE statement f-string
(import-location-addresses.py:78-85): the four SET values are
quote-doubled, the location key in the WHERE clause is embedded
verbatim. -/
def originUpdateSql (location : String) (a : AddressInfo) : String :=
  "\nUPDATE routes SET \n    \"originAddress\" = " ++ sq ++ escapeQuotes a.address ++ sq
    ++ ",\n    \"originCity\" = " ++ sq ++ escapeQuotes a.city ++ sq
    ++ ",\n    \"originState\" = " ++ sq ++ escapeQuotes a.state ++ sq
    ++ ",\n    \"originZipCode\" = " ++ sq ++ escapeQuotes a.zipcode ++ sq
    ++ "\nWHERE UPPER(origin) = " ++ sq ++ location ++ sq ++ ";\n"

/-- The destination-side UPDATE statement f-string
(import-location-addresses.py:89-96). -/
def destUpdateSql (location : String) (a : AddressInfo) : String :=
  "\nUPDATE routes SET \n    \"destinationAddress\" = " ++ sq ++ escapeQuotes a.address ++ sq
    ++ ",\n    \"destinationCity\" = " ++ sq ++ escapeQuotes a.city ++ sq
    ++ ",\n    \"destinationState\" = " ++ sq ++ escapeQuotes a.state ++ sq
    ++ ",\n    \"destinationZipCode\" = " ++ sq ++ escapeQuotes a.zipcode ++ sq
    ++ "\nWHERE UPPER(destination) = " ++ sq ++ location ++ sq ++ ";\n"

/-- `generate_sql_updates` (import-location-addresses.py:67-99) over the
location mapping, taken as an association list in insertion order. -/
def generate_sql_updates (m : List (String × AddressInfo)) : List String :=
  ["-- SQL statements to update route locations with address information",
   "-- Generated from Location addresses.xlsx", ""]
    ++ m.flatMap (fun p => [originUpdateSql p.1 p.2, destUpdateSql p.1 p.2])

/-- Number of single-quote characters in a string. -/
def countQuote (s : String) : Nat :=
  s.data.count sqChar

/-! ## Concrete rows used by witnesses and counterexamples -/

/-- A carrier raw row with the given name, MC and DOT cells and every
other column absent. -/
def mkCarrierRow (nm mc dot : Cell) : CarrierRawRow :=
  { carrierName := nm, primaryContact := Cell.null, phone := Cell.null,
    primaryEmail := Cell.null, mcNumber := mc, dotNumber := dot,
    status := Cell.null, safetyRating := Cell.null, taxId := Cell.null,
    carrierType := Cell.null, streetAddress1 := Cell.null,
    streetAddress2 := Cell.null, city := Cell.null, st := Cell.null,
    zip := Cell.null, remittanceContact := Cell.null,
    remittanceEmail := Cell.null, factoringCompany := Cell.null }

/-- A carrier row with MC number 100 and no DOT number. -/
def acmeMcRow : CarrierRawRow :=
  mkCarrierRow (Cell.str "Acme") (Cell.num 100) Cell.null

/-- A carrier row with a null MC number and DOT number 7. -/
def dotOnlyRow : CarrierRawRow :=
  mkCarrierRow (Cell.str "Acme") Cell.null (Cell.num 7)

/-- A carrier row whose MC Number cell holds text that `int()` cannot
coerce. -/
def badMcRow : CarrierRawRow :=
  mkCarrierRow (Cell.str "Acme") (Cell.str "ABC") Cell.null

/-- A carrier row whose MC Number coerces fine but whose DOT Number cell
holds text that `int()` cannot coerce. -/
def badDotRow : CarrierRawRow :=
  mkCarrierRow (Cell.str "Acme") (Cell.num 100) (Cell.str "XYZ")

/-- The record `acmeMcRow` normalizes to. -/
def acmeRecord : CarrierRecord :=
  { name := "Acme", contactPerson := none, phone := none, email := none,
    mcNumber := some "100", dotNumber := none, status := "PENDING",
    safetyRating := none, taxId := none, carrierType := none,
    streetAddress1 := none, streetAddress2 := none, city := none,
    state := none, zipCode := none, remittanceContact := none,
    remittanceEmail := none, factoringCompany := none,
    onboardingComplete := false }

/-! ## General helper lemmas -/

theorem clean_string_some_ne_empty {x : Cell} {v : String}
    (h : clean_string x = some v) : v ≠ "" := by
  cases x with
  | null => simp [clean_string] at h
  | str s =>
      simp only [clean_string] at h
      split at h
      · exact absurd h (by simp)
      · rename_i hne
        obtain rfl : _ = v := Option.some.inj h
        exact hne
  | num n =>
      simp only [clean_string] at h
      split at h
      · exact absurd h (by simp)
      · rename_i hne
        obtain rfl : _ = v := Option.some.inj h
        exact hne

theorem filter_digits_of_all_digits {D : List Char}
    (hd : ∀ ch ∈ D, ch.isDigit = true) : D.filter Char.isDigit = D :=
  List.filter_eq_self.mpr hd

theorem data_mk (l : List Char) : (String.mk l).data = l := rfl

theorem clean_phone_str (s : String) :
    clean_phone (Cell.str s) =
      (if (s.data.filter Char.isDigit).length = 10 then
         some (fmt10 (s.data.filter Char.isDigit))
       else if (s.data.filter Char.isDigit).length = 11 ∧
           (s.data.filter Char.isDigit).head? = some '1' then
         some (fmt10 (s.data.filter Char.isDigit).tail)
       else if s.data.filter Char.isDigit = [] then none
       else some (String.mk (s.data.filter Char.isDigit))) := rfl

/-! ## Claim theorems -/

/-- Claim C7: `clean_phone` formats every 10-digit digit-string `D` as
exactly `(D[0:3]) D[3:6]-D[6:10]`; on an 11-digit digit-string starting
with `1` it agrees with its value on the 10-digit tail; any other
non-empty digit residue is returned raw; an empty residue or a NaN cell
gives `None`. -/
theorem clean_phone_spec :
    (∀ D : List Char, (∀ ch ∈ D, ch.isDigit = true) → D.length = 10 →
      clean_phone (Cell.str (String.mk D)) =
        some ("(" ++ String.mk (D.take 3) ++ ") " ++ String.mk ((D.drop 3).take 3)
          ++ "-" ++ String.mk (D.drop 6))) ∧
    (∀ D : List Char, (∀ ch ∈ D, ch.isDigit = true) → D.length = 11 →
      D.head? = some '1' →
      clean_phone (Cell.str (String.mk D)) = clean_phone (Cell.str (String.mk D.tail))) ∧
    (∀ s : String, (s.data.filter Char.isDigit).length ≠ 10 →
      ¬((s.data.filter Char.isDigit).length = 11 ∧
          (s.data.filter Char.isDigit).head? = some '1') →
      s.data.filter Char.isDigit ≠ [] →
      clean_phone (Cell.str s) = some (String.mk (s.data.filter Char.isDigit))) ∧
    (∀ s : String, s.data.filter Char.isDigit = [] →
      clean_phone (Cell.str s) = none) ∧
    clean_phone Cell.null = none := by
  refine ⟨?_, ?_, ?_, ?_, rfl⟩
  · intro D hd hlen
    rw [clean_phone_str, data_mk, filter_digits_of_all_digits hd, if_pos hlen]
    rfl
  · intro D hd hlen hhead
    have htl : ∀ ch ∈ D.tail, ch.isDigit = true := fun ch hch =>
      hd ch (List.mem_of_mem_tail hch)
    have htlen : D.tail.length = 10 := by
      rw [List.length_tail, hlen]
    rw [clean_phone_str, data_mk, filter_digits_of_all_digits hd,
      if_neg (by omega), if_pos ⟨hlen, hhead⟩,
      clean_phone_str, data_mk, filter_digits_of_all_digits htl, if_pos htlen]
  · intro s h10 h11 hne
    rw [clean_phone_str, if_neg h10, if_neg h11, if_neg hne]
  · intro s hnil
    rw [clean_phone_str, hnil]
    rfl

/-- Claim C7 witness: the theorem instantiated on the digit-strings
`5551234567` and `15551234567` and on text with no digits. -/
theorem clean_phone_spec_witness :
    clean_phone (Cell.str (String.mk ("5551234567").data)) =
      some ("(" ++ String.mk (("5551234567").data.take 3) ++ ") "
        ++ String.mk ((("5551234567").data.drop 3).take 3)
        ++ "-" ++ String.mk (("5551234567").data.drop 6)) ∧
    clean_phone (Cell.str (String.mk ("15551234567").data)) =
      clean_phone (Cell.str (String.mk ("15551234567").data.tail)) ∧
    clean_phone (Cell.str "12345") = some (String.mk (("12345").data.filter Char.isDigit)) ∧
    clean_phone (Cell.str "abc") = none :=
  ⟨clean_phone_spec.1 ("5551234567").data (by decide) (by decide),
   clean_phone_spec.2.1 ("15551234567").data (by decide) (by decide) (by decide),
   clean_phone_spec.2.2.1 "12345" (by decide) (by decide) (by decide),
   clean_phone_spec.2.2.2.1 "abc" (by decide)⟩

theorem map_status_str (s : String) :
    map_status (Cell.str s) =
      (if containsSub ("NOT ONBOARDED").data (pyUpper (pyStrip s)).data then
         "NOT_ONBOARDED"
       else if containsSub ("ONBOARDED").data (pyUpper (pyStrip s)).data then
         "ONBOARDED"
       else "PENDING") := rfl

theorem map_status_num (n : Int) :
    map_status (Cell.num n) =
      (if containsSub ("NOT ONBOARDED").data (pyUpper (pyStrip (toString n))).data then
         "NOT_ONBOARDED"
       else if containsSub ("ONBOARDED").data (pyUpper (pyStrip (toString n))).data then
         "ONBOARDED"
       else "PENDING") := rfl

/-- Claim C8: `map_status` is total into {PENDING, ONBOARDED,
NOT_ONBOARDED}; NaN and empty cells map to PENDING; the substring check
for `NOT ONBOARDED` runs before the bare `ONBOARDED` check, so any input
whose stripped uppercase form contains `NOT ONBOARDED` — in particular
the literal text `Not Onboarded` — maps to NOT_ONBOARDED. -/
theorem map_status_spec :
    (∀ c : Cell, map_status c = "PENDING" ∨ map_status c = "ONBOARDED" ∨
      map_status c = "NOT_ONBOARDED") ∧
    map_status Cell.null = "PENDING" ∧
    map_status (Cell.str "") = "PENDING" ∧
    map_status (Cell.str "Not Onboarded") = "NOT_ONBOARDED" ∧
    (∀ s : String,
      containsSub ("NOT ONBOARDED").data (pyUpper (pyStrip s)).data = true →
      map_status (Cell.str s) = "NOT_ONBOARDED") := by
  refine ⟨?_, rfl, by decide, by decide, ?_⟩
  · intro c
    cases c with
    | null => exact Or.inl rfl
    | str s =>
        rw [map_status_str]
        split
        · exact Or.inr (Or.inr rfl)
        · split
          · exact Or.inr (Or.inl rfl)
          · exact Or.inl rfl
    | num n =>
        rw [map_status_num]
        split
        · exact Or.inr (Or.inr rfl)
        · split
          · exact Or.inr (Or.inl rfl)
          · exact Or.inl rfl
  · intro s h
    rw [map_status_str, if_pos h]

/-- Claim C8 witness: the ordered-substring conjunct applied to the
uppercased text ` not onboarded `. -/
theorem map_status_spec_witness :
    map_status (Cell.str " not onboarded ") = "NOT_ONBOARDED" :=
  map_status_spec.2.2.2.2 " not onboarded " (by decide)

theorem contains_of_count_ne_zero {l : List Char} {c : Char}
    (h : l.count c ≠ 0) : l.contains c = true := by
  have hm : c ∈ l := List.count_pos_iff.mp (Nat.pos_of_ne_zero h)
  exact List.elem_iff.mpr hm

theorem clean_time_str (parse : String → Option (Nat × Nat × Nat)) (s : String) :
    clean_time_string parse (Cell.str s) =
      (match (if containsSub ("1900-01-01").data s.data then
                (findTimeToken s.data).map String.mk
              else none) with
       | some tok => some tok
       | none =>
           if s.data.contains ':' then
             if s.data.count ':' + 1 = 3 then some s
             else if s.data.count ':' + 1 = 2 then some (s ++ ":00")
             else
               match parse s with
               | some (h, m, sec) => some (fmt2 h ++ ":" ++ fmt2 m ++ ":" ++ fmt2 sec)
               | none => some s
           else
             match parse s with
             | some (h, m, sec) => some (fmt2 h ++ ":" ++ fmt2 m ++ ":" ++ fmt2 sec)
             | none => some s) := rfl

/-- Claim C9: `clean_time_string` returns `None` on a NaN cell; on text
containing `1900-01-01` it returns the leftmost embedded `HH:MM:SS`
token when one exists; otherwise text with three colon-delimited parts
passes through unchanged, two parts get `:00` appended, and anything
else goes to the external parser and is reformatted `HH:MM:SS`, falling
back to the original text when parsing fails. -/
theorem clean_time_string_spec (parse : String → Option (Nat × Nat × Nat)) :
    clean_time_string parse Cell.null = none ∧
    (∀ (s : String) (tok : List Char),
      containsSub ("1900-01-01").data s.data = true →
      findTimeToken s.data = some tok →
      clean_time_string parse (Cell.str s) = some (String.mk tok)) ∧
    (∀ s : String, containsSub ("1900-01-01").data s.data = false →
      s.data.count ':' = 2 →
      clean_time_string parse (Cell.str s) = some s) ∧
    (∀ s : String, containsSub ("1900-01-01").data s.data = false →
      s.data.count ':' = 1 →
      clean_time_string parse (Cell.str s) = some (s ++ ":00")) ∧
    (∀ (s : String) (h m sec : Nat),
      containsSub ("1900-01-01").data s.data = false →
      s.data.count ':' ≠ 1 → s.data.count ':' ≠ 2 → parse s = some (h, m, sec) →
      clean_time_string parse (Cell.str s) =
        some (fmt2 h ++ ":" ++ fmt2 m ++ ":" ++ fmt2 sec)) ∧
    (∀ s : String, containsSub ("1900-01-01").data s.data = false →
      s.data.count ':' ≠ 1 → s.data.count ':' ≠ 2 → parse s = none →
      clean_time_string parse (Cell.str s) = some s) := by
  refine ⟨rfl, ?_, ?_, ?_, ?_, ?_⟩
  · intro s tok h1900 hfind
    rw [clean_time_str, if_pos h1900, hfind]
    rfl
  · intro s h1900 hcnt
    have hcontains : s.data.contains ':' = true :=
      contains_of_count_ne_zero (by omega)
    rw [clean_time_str, if_neg (by simp [h1900]), hcontains]
    simp only [if_true, ite_true]
    rw [if_pos (by omega)]
  · intro s h1900 hcnt
    have hcontains : s.data.contains ':' = true :=
      contains_of_count_ne_zero (by omega)
    rw [clean_time_str, if_neg (by simp [h1900]), hcontains]
    simp only [if_true, ite_true]
    rw [if_neg (by omega), if_pos (by omega)]
  · intro s h m sec h1900 hc1 hc2 hparse
    rw [clean_time_str, if_neg (by simp [h1900])]
    cases hcon : s.data.contains ':' with
    | true =>
        simp only [if_true, ite_true]
        rw [if_neg (by omega), if_neg (by omega), hparse]
    | false =>
        simp only [if_false, ite_false, Bool.false_eq_true]
        rw [hparse]
  · intro s h1900 hc1 hc2 hparse
    rw [clean_time_str, if_neg (by simp [h1900])]
    cases hcon : s.data.contains ':' with
    | true =>
        simp only [if_true, ite_true]
        rw [if_neg (by omega), if_neg (by omega), hparse]
    | false =>
        simp only [if_false, ite_false, Bool.false_eq_true]
        rw [hparse]

/-- Claim C9 witness: the 1900-placeholder conjunct on
`1900-01-01 00:00:00 08:15:00` and the two-part conjunct on `08:15`,
under a parser that always fails. -/
theorem clean_time_string_spec_witness :
    clean_time_string (fun _ => none) (Cell.str "1900-01-01 00:00:00 08:15:00") =
      some (String.mk ("00:00:00").data) ∧
    clean_time_string (fun _ => none) (Cell.str "08:15") = some ("08:15" ++ ":00") ∧
    clean_time_string (fun _ => none) (Cell.str "gibberish") = some "gibberish" :=
  ⟨(clean_time_string_spec (fun _ => none)).2.1 "1900-01-01 00:00:00 08:15:00"
      ("00:00:00").data (by decide) (by decide),
   (clean_time_string_spec (fun _ => none)).2.2.2.1 "08:15" (by decide) (by decide),
   (clean_time_string_spec (fun _ => none)).2.2.2.2.2 "gibberish" (by decide)
      (by decide) (by decide) rfl⟩

theorem countQuote_append (a b : String) :
    countQuote (a ++ b) = countQuote a + countQuote b := by
  show (a.data ++ b.data).count sqChar = _
  exact List.count_append sqChar a.data b.data

theorem count_escapeList (l : List Char) :
    (escapeList l).count sqChar = 2 * l.count sqChar := by
  induction l with
  | nil => rfl
  | cons c rest ih =>
      by_cases hc : c = sqChar
      · subst hc
        simp [escapeList, List.count_cons, ih]
        omega
      · simp [escapeList, hc, List.count_cons, ih]

theorem countQuote_escapeQuotes (s : String) :
    countQuote (escapeQuotes s) = 2 * countQuote s :=
  count_escapeList s.data

/-- Claim C10: in the generated enrichment SQL, quote-doubling applies
to the four SET values (every single quote becomes two), while the
location key in the WHERE clause is embedded verbatim: each statement's
total quote count is the 10 template quotes plus twice the address
fields' quotes plus the location's quotes undoubled, and for the
location `O'FALLON` the statement text contains the unescaped fragment
`WHERE UPPER(origin) = 'O'FALLON';`. -/
theorem enrichment_sql_quote_escaping :
    (∀ s : String, countQuote (escapeQuotes s) = 2 * countQuote s) ∧
    (∀ (loc : String) (a : AddressInfo),
      countQuote (originUpdateSql loc a) =
        10 + 2 * (countQuote a.address + countQuote a.city + countQuote a.state
          + countQuote a.zipcode) + countQuote loc) ∧
    (∀ (loc : String) (a : AddressInfo),
      countQuote (destUpdateSql loc a) =
        10 + 2 * (countQuote a.address + countQuote a.city + countQuote a.state
          + countQuote a.zipcode) + countQuote loc) ∧
    containsSub ("WHERE UPPER(origin) = " ++ sq ++ "O" ++ sq ++ "FALLON" ++ sq ++ ";").data
      (originUpdateSql ("O" ++ sq ++ "FALLON")
        ⟨"1 Main St", "O" ++ sq ++ "Fallon", "MO", "63366"⟩).data = true := by
  refine ⟨countQuote_escapeQuotes, ?_, ?_, by decide⟩
  · intro loc a
    simp only [originUpdateSql, countQuote_append, countQuote_escapeQuotes]
    have h1 : countQuote "\nUPDATE routes SET \n    \"originAddress\" = " = 0 := by decide
    have h2 : countQuote ",\n    \"originCity\" = " = 0 := by decide
    have h3 : countQuote ",\n    \"originState\" = " = 0 := by decide
    have h4 : countQuote ",\n    \"originZipCode\" = " = 0 := by decide
    have h5 : countQuote "\nWHERE UPPER(origin) = " = 0 := by decide
    have h6 : countQuote ";\n" = 0 := by decide
    have h7 : countQuote sq = 1 := by decide
    rw [h1, h2, h3, h4, h5, h6, h7]
    omega
  · intro loc a
    simp only [destUpdateSql, countQuote_append, countQuote_escapeQuotes]
    have h1 : countQuote "\nUPDATE routes SET \n    \"destinationAddress\" = " = 0 := by decide
    have h2 : countQuote ",\n    \"destinationCity\" = " = 0 := by decide
    have h3 : countQuote ",\n    \"destinationState\" = " = 0 := by decide
    have h4 : countQuote ",\n    \"destinationZipCode\" = " = 0 := by decide
    have h5 : countQuote "\nWHERE UPPER(destination) = " = 0 := by decide
    have h6 : countQuote ";\n" = 0 := by decide
    have h7 : countQuote sq = 1 := by decide
    rw [h1, h2, h3, h4, h5, h6, h7]
    omega

/-! ## Carrier run counter lemmas -/

/-- The row reaches `cursor.execute` (whether or not the insert is
absorbed by the conflict policy). -/
def isValidCarrierRow (r : CarrierRawRow) : Bool :=
  match normCarrierRow r with
  | CarrierRowResult.valid _ => true
  | _ => false

/-- The row raises and is caught by the row-level handler. -/
def isFailedCarrierRow (r : CarrierRawRow) : Bool :=
  match normCarrierRow r with
  | CarrierRowResult.failed => true
  | _ => false

theorem carrierRunFrom_succeeded (st : CarrierRunState) (rows : List CarrierRawRow) :
    (carrierRunFrom st rows).succeeded =
      st.succeeded + (rows.filter isValidCarrierRow).length := by
  induction rows generalizing st with
  | nil => rfl
  | cons r rest ih =>
      show (carrierRunFrom (carrierStep st r) rest).succeeded = _
      rw [ih]
      unfold carrierStep isValidCarrierRow
      cases h : normCarrierRow r <;> (simp [List.filter_cons, h]; try omega)

theorem carrierRunFrom_failed (st : CarrierRunState) (rows : List CarrierRawRow) :
    (carrierRunFrom st rows).failed =
      st.failed + (rows.filter isFailedCarrierRow).length := by
  induction rows generalizing st with
  | nil => rfl
  | cons r rest ih =>
      show (carrierRunFrom (carrierStep st r) rest).failed = _
      rw [ih]
      unfold carrierStep isFailedCarrierRow
      cases h : normCarrierRow r <;> (simp [List.filter_cons, h]; try omega)

theorem carrierRunFrom_table_congr (st₁ st₂ : CarrierRunState)
    (rows : List CarrierRawRow) (h : st₁.table = st₂.table) :
    (carrierRunFrom st₁ rows).table = (carrierRunFrom st₂ rows).table := by
  induction rows generalizing st₁ st₂ with
  | nil => exact h
  | cons r rest ih =>
      show (carrierRunFrom (carrierStep st₁ r) rest).table
        = (carrierRunFrom (carrierStep st₂ r) rest).table
      apply ih
      unfold carrierStep
      cases hr : normCarrierRow r <;> simp [h]

/-- Claim C2 counterexample: two identical rows sharing MC number 100.
Both `cursor.execute` calls return without raising, so
`successful_inserts` ends at 2, yet the conflict policy absorbed the
second insert and only one table row was actually added — the succeeded
counter does not equal the number of inserts that added a row. -/
theorem carrier_conflict_counted_success_cex :
    (runCarrierImport [] [acmeMcRow, acmeMcRow]).succeeded = 2 ∧
    (runCarrierImport [] [acmeMcRow, acmeMcRow]).table.length = 1 := by
  decide

/-- Claim C2 (amended): `successful_inserts` counts every row whose
insert attempt executes without raising — including conflict-absorbed
duplicates — and `failed_inserts` counts exactly the rows whose
processing raised; neither counter reflects whether the insert actually
added a row. -/
theorem carrier_succeeded_counts_valid_rows (t : List CarrierRecord)
    (rows : List CarrierRawRow) :
    (runCarrierImport t rows).succeeded = (rows.filter isValidCarrierRow).length ∧
    (runCarrierImport t rows).failed = (rows.filter isFailedCarrierRow).length := by
  constructor
  · rw [runCarrierImport, carrierRunFrom_succeeded]
    exact Nat.zero_add _
  · rw [runCarrierImport, carrierRunFrom_failed]
    exact Nat.zero_add _


/-! ## Route run lemmas -/

/-- The route row reaches `cursor.execute`. -/
def isValidRouteRow (parse : String → Option (Nat × Nat × Nat))
    (r : RouteRawRow) : Bool :=
  match normRouteRow parse r with
  | RouteRowResult.valid _ => true
  | _ => false

theorem normRouteRow_skipped_iff (parse : String → Option (Nat × Nat × Nat))
    (r : RouteRawRow) :
    normRouteRow parse r = RouteRowResult.skipped ↔ r.miles = Cell.null := by
  constructor
  · intro h
    cases hm : r.miles with
    | null => rfl
    | str s =>
        unfold normRouteRow normMiles at h
        rw [hm] at h
        revert h
        cases hf : floatOfCell (Cell.str s) <;> simp [hf]
    | num n =>
        unfold normRouteRow normMiles at h
        rw [hm] at h
        revert h
        cases hf : floatOfCell (Cell.num n) <;> simp [hf]
  · intro h
    unfold normRouteRow normMiles
    rw [h]

theorem routeRunFrom_skipped (parse : String → Option (Nat × Nat × Nat))
    (st : RouteRunState) (rows : List RouteRawRow) :
    (routeRunFrom parse st rows).skipped =
      st.skipped + (rows.filter (fun r => decide (r.miles = Cell.null))).length := by
  induction rows generalizing st with
  | nil => rfl
  | cons r rest ih =>
      show (routeRunFrom parse (routeStep parse st r) rest).skipped = _
      rw [ih]
      unfold routeStep
      cases h : normRouteRow parse r with
      | skipped =>
          have hm : r.miles = Cell.null := (normRouteRow_skipped_iff parse r).mp h
          simp [List.filter_cons, hm]
          omega
      | failed =>
          have hm : ¬r.miles = Cell.null := fun hc =>
            by rw [(normRouteRow_skipped_iff parse r).mpr hc] at h; cases h
          simp [List.filter_cons, hm]
      | valid c =>
          have hm : ¬r.miles = Cell.null := fun hc =>
            by rw [(normRouteRow_skipped_iff parse r).mpr hc] at h; cases h
          simp [List.filter_cons, hm]

theorem routeRunFrom_table_length (parse : String → Option (Nat × Nat × Nat))
    (st : RouteRunState) (rows : List RouteRawRow) :
    (routeRunFrom parse st rows).table.length =
      st.table.length + (rows.filter (isValidRouteRow parse)).length := by
  induction rows generalizing st with
  | nil => rfl
  | cons r rest ih =>
      show (routeRunFrom parse (routeStep parse st r) rest).table.length = _
      rw [ih]
      unfold routeStep isValidRouteRow
      cases h : normRouteRow parse r <;> (simp [List.filter_cons, h]; try omega)

/-- Claim C3: every route row whose `Miles` cell is null is taken
through the `continue` at line 97 — the run's skipped count equals the
number of null-`Miles` rows — and no such row reaches the insert: a
null-`Miles` row normalizes to `skipped`, and every row that reaches
`cursor.execute` has a non-null `Miles` cell. -/
theorem route_null_miles_skipped_never_persisted
    (parse : String → Option (Nat × Nat × Nat))
    (priorTable : List RouteRecord) (rows : List RouteRawRow) :
    (runRouteImport parse priorTable rows).skipped =
      (rows.filter (fun r => decide (r.miles = Cell.null))).length ∧
    (∀ r : RouteRawRow, r.miles = Cell.null →
      normRouteRow parse r = RouteRowResult.skipped) ∧
    (∀ (r : RouteRawRow) (c : RouteRecord),
      normRouteRow parse r = RouteRowResult.valid c → r.miles ≠ Cell.null) := by
  refine ⟨?_, ?_, ?_⟩
  · rw [runRouteImport]
    rw [routeRunFrom_skipped]
    exact Nat.zero_add _
  · intro r h
    exact (normRouteRow_skipped_iff parse r).mpr h
  · intro r c hv hm
    rw [(normRouteRow_skipped_iff parse r).mpr hm] at hv
    cases hv

/-- Claim C3 witness: a three-row source with one null-`Miles` row, one
numeric row and one uncoercible row, under a parser that always fails;
plus the per-row conjuncts at the null-`Miles` row. -/
theorem route_null_miles_skipped_witness :
    (runRouteImport (fun _ => none) []
        [{ name := Cell.str "R1", orig := Cell.str "A", dest := Cell.str "B",
           miles := Cell.null, active := Cell.num 1,
           departTime := Cell.null, arriveTime := Cell.null },
         { name := Cell.str "R2", orig := Cell.str "A", dest := Cell.str "B",
           miles := Cell.num 5, active := Cell.num 1,
           departTime := Cell.null, arriveTime := Cell.null },
         { name := Cell.str "R3", orig := Cell.str "A", dest := Cell.str "B",
           miles := Cell.str "xx", active := Cell.num 1,
           departTime := Cell.null, arriveTime := Cell.null }]).skipped = 1 ∧
    normRouteRow (fun _ => none)
        { name := Cell.str "R1", orig := Cell.str "A", dest := Cell.str "B",
          miles := Cell.null, active := Cell.num 1,
          departTime := Cell.null, arriveTime := Cell.null }
      = RouteRowResult.skipped := by
  refine ⟨?_, ?_⟩
  · have h := route_null_miles_skipped_never_persisted (fun _ => none) []
      [{ name := Cell.str "R1", orig := Cell.str "A", dest := Cell.str "B",
         miles := Cell.null, active := Cell.num 1,
         departTime := Cell.null, arriveTime := Cell.null },
       { name := Cell.str "R2", orig := Cell.str "A", dest := Cell.str "B",
         miles := Cell.num 5, active := Cell.num 1,
         departTime := Cell.null, arriveTime := Cell.null },
       { name := Cell.str "R3", orig := Cell.str "A", dest := Cell.str "B",
         miles := Cell.str "xx", active := Cell.num 1,
         departTime := Cell.null, arriveTime := Cell.null }]
    rw [h.1]
    decide
  · exact (route_null_miles_skipped_never_persisted (fun _ => none) [] []).2.1
      { name := Cell.str "R1", orig := Cell.str "A", dest := Cell.str "B",
        miles := Cell.null, active := Cell.num 1,
        departTime := Cell.null, arriveTime := Cell.null } rfl

/-- Claim C5: the route pipeline is a full-replace load — the delete at
lines 66-71 clears the table before the loop, so the final row count
equals the number of valid (non-null-`Miles`, non-raising) rows of the
current source alone, for every prior table state. -/
theorem route_full_replace_load (parse : String → Option (Nat × Nat × Nat))
    (priorTable : List RouteRecord) (rows : List RouteRawRow) :
    (runRouteImport parse priorTable rows).table.length =
      (rows.filter (isValidRouteRow parse)).length := by
  rw [runRouteImport, routeRunFrom_table_length]
  simp

/-! ## Carrier required-field invariant (C6) -/

theorem normCarrierRow_valid_props {r : CarrierRawRow} {c : CarrierRecord}
    (h : normCarrierRow r = CarrierRowResult.valid c) :
    c.name ≠ "" ∧ ¬(c.mcNumber = none ∧ c.dotNumber = none) := by
  unfold normCarrierRow at h
  cases hn : clean_string r.carrierName with
  | none => rw [hn] at h; cases h
  | some name =>
      rw [hn] at h
      cases hmc : normIdNumber r.mcNumber with
      | none => rw [hmc] at h; cases h
      | some mc =>
          rw [hmc] at h
          cases hdot : normIdNumber r.dotNumber with
          | none => rw [hdot] at h; cases h
          | some dot =>
              rw [hdot] at h
              simp only [] at h
              by_cases hb : mc = none ∧ dot = none
              · rw [if_pos hb] at h; cases h
              · rw [if_neg hb] at h
                obtain rfl : _ = c := CarrierRowResult.valid.inj h
                exact ⟨clean_string_some_ne_empty hn, hb⟩

theorem mem_insertCarrier {x c : CarrierRecord} {t : List CarrierRecord}
    (h : x ∈ insertCarrier t c) : x ∈ t ∨ x = c := by
  unfold insertCarrier at h
  cases hm : c.mcNumber with
  | none =>
      rw [hm] at h
      rcases List.mem_append.mp h with h' | h'
      · exact Or.inl h'
      · exact Or.inr (List.mem_singleton.mp h')
  | some m =>
      rw [hm] at h
      simp only [] at h
      by_cases hp : mcPresent t m
      · rw [if_pos hp] at h; exact Or.inl h
      · rw [if_neg hp] at h
        rcases List.mem_append.mp h with h' | h'
        · exact Or.inl h'
        · exact Or.inr (List.mem_singleton.mp h')

theorem carrierRunFrom_table_invariant (P : CarrierRecord → Prop)
    (hvalid : ∀ (r : CarrierRawRow) (c : CarrierRecord),
      normCarrierRow r = CarrierRowResult.valid c → P c) :
    ∀ (rows : List CarrierRawRow) (st : CarrierRunState),
      (∀ x ∈ st.table, P x) → ∀ x ∈ (carrierRunFrom st rows).table, P x := by
  intro rows
  induction rows with
  | nil => intro st hst; exact hst
  | cons r rest ih =>
      intro st hst x hx
      refine ih (carrierStep st r) ?_ x hx
      intro y hy
      unfold carrierStep at hy
      cases hr : normCarrierRow r with
      | skipped => rw [hr] at hy; exact hst y hy
      | failed => rw [hr] at hy; exact hst y hy
      | valid c =>
          rw [hr] at hy
          rcases mem_insertCarrier hy with h' | h'
          · exact hst y h'
          · exact h' ▸ hvalid r c hr

/-- Claim C6: the carrier import never persists a record without a
carrier name, and never one whose `mcNumber` and `dotNumber` are both
null: a row reaches `cursor.execute` only as a record with a non-empty
(trimmed) name and at least one identifier, so every record of the
table after a run from an empty table satisfies both. -/
theorem carrier_persisted_requires_name_and_id
    (rows : List CarrierRawRow) (c : CarrierRecord)
    (hc : c ∈ (runCarrierImport [] rows).table) :
    c.name ≠ "" ∧ ¬(c.mcNumber = none ∧ c.dotNumber = none) := by
  refine carrierRunFrom_table_invariant
    (fun x => x.name ≠ "" ∧ ¬(x.mcNumber = none ∧ x.dotNumber = none))
    (fun r x hr => normCarrierRow_valid_props hr) rows
    { table := [], succeeded := 0, failed := 0 } ?_ c hc
  intro x hx
  cases hx

/-- Claim C6 witness: the record persisted for the `Acme` row is in the
table and carries a non-empty name and a present MC number. -/
theorem carrier_persisted_requires_name_and_id_witness :
    acmeRecord.name ≠ "" ∧
      ¬(acmeRecord.mcNumber = none ∧ acmeRecord.dotNumber = none) :=
  carrier_persisted_requires_name_and_id [acmeMcRow] acmeRecord (by decide)

/-! ## Coercion failure handling (C4) -/

/-- Claim C4 counterexample: a row with a carrier name and an MC Number
cell of uncoercible text `ABC`.  The claim says such a row is not
counted as a failure, but the `int()` exception is caught by the
row-level handler and `failed_inserts` ends at 1. -/
theorem carrier_coercion_failure_cex :
    (runCarrierImport [] [badMcRow]).failed = 1 ∧
    (runCarrierImport [] [badMcRow]).succeeded = 0 := by
  decide

/-- A non-null cell on which `int()` raises makes the whole
`clean_string(str(int(cell))) if pd.notna(cell) else None` expression
raise. -/
theorem normIdNumber_coercion_raises {c : Cell}
    (hc : c ≠ Cell.null) (hco : intOfCell c = none) : normIdNumber c = none := by
  cases hcc : c with
  | null => exact absurd hcc hc
  | str s =>
      rw [hcc] at hco
      simp only [normIdNumber, hco]
  | num n =>
      rw [hcc] at hco
      simp only [normIdNumber, hco]

/-- Claim C4 (amended): when `int()` coercion of the MC Number or the
DOT Number cell fails (a non-null cell `int()` raises on), the
row-level exception handler catches it — the run continues and later
rows are processed identically — but the row IS counted as a failure
(`failed_inserts` grows by one), not treated as a field-level skip. -/
theorem carrier_coercion_failure_counted_failed
    (t : List CarrierRecord) (r : CarrierRawRow) (rest : List CarrierRawRow)
    (hname : clean_string r.carrierName ≠ none)
    (hco : (r.mcNumber ≠ Cell.null ∧ intOfCell r.mcNumber = none) ∨
      (r.dotNumber ≠ Cell.null ∧ intOfCell r.dotNumber = none)) :
    normCarrierRow r = CarrierRowResult.failed ∧
    (runCarrierImport t (r :: rest)).failed = (runCarrierImport t rest).failed + 1 ∧
    (runCarrierImport t (r :: rest)).succeeded = (runCarrierImport t rest).succeeded ∧
    (runCarrierImport t (r :: rest)).table = (runCarrierImport t rest).table := by
  obtain ⟨nm, hn⟩ := Option.ne_none_iff_exists'.mp hname
  have hid : normIdNumber r.mcNumber = none ∨ normIdNumber r.dotNumber = none := by
    rcases hco with ⟨h1, h2⟩ | ⟨h1, h2⟩
    · exact Or.inl (normIdNumber_coercion_raises h1 h2)
    · exact Or.inr (normIdNumber_coercion_raises h1 h2)
  have hfail : normCarrierRow r = CarrierRowResult.failed := by
    unfold normCarrierRow
    rw [hn]
    simp only []
    rcases hid with hmc | hdot
    · rw [hmc]
    · cases hmcv : normIdNumber r.mcNumber with
      | none => rfl
      | some mc =>
          simp only []
          rw [hdot]
  have hstep : carrierStep { table := t, succeeded := 0, failed := 0 } r
      = { table := t, succeeded := 0, failed := 1 } := by
    unfold carrierStep
    rw [hfail]
  have hrun : runCarrierImport t (r :: rest)
      = carrierRunFrom { table := t, succeeded := 0, failed := 1 } rest := by
    show carrierRunFrom (carrierStep { table := t, succeeded := 0, failed := 0 } r) rest = _
    rw [hstep]
  refine ⟨hfail, ?_, ?_, ?_⟩
  · rw [hrun, carrierRunFrom_failed, runCarrierImport, carrierRunFrom_failed]
    show 1 + _ = 0 + _ + 1
    omega
  · rw [hrun, carrierRunFrom_succeeded, runCarrierImport, carrierRunFrom_succeeded]
  · rw [hrun, runCarrierImport]
    exact carrierRunFrom_table_congr _ _ rest rfl

/-- Claim C4 witness: the amended theorem at both failure shapes — the
uncoercible-MC row (`ABC`) and the good-MC/uncoercible-DOT row (`XYZ`) —
each followed by the ordinary `Acme` row. -/
theorem carrier_coercion_failure_counted_failed_witness :
    (normCarrierRow badMcRow = CarrierRowResult.failed ∧
     (runCarrierImport [] [badMcRow, acmeMcRow]).failed
       = (runCarrierImport [] [acmeMcRow]).failed + 1 ∧
     (runCarrierImport [] [badMcRow, acmeMcRow]).succeeded
       = (runCarrierImport [] [acmeMcRow]).succeeded ∧
     (runCarrierImport [] [badMcRow, acmeMcRow]).table
       = (runCarrierImport [] [acmeMcRow]).table) ∧
    (normCarrierRow badDotRow = CarrierRowResult.failed ∧
     (runCarrierImport [] [badDotRow, acmeMcRow]).failed
       = (runCarrierImport [] [acmeMcRow]).failed + 1 ∧
     (runCarrierImport [] [badDotRow, acmeMcRow]).succeeded
       = (runCarrierImport [] [acmeMcRow]).succeeded ∧
     (runCarrierImport [] [badDotRow, acmeMcRow]).table
       = (runCarrierImport [] [acmeMcRow]).table) :=
  ⟨carrier_coercion_failure_counted_failed [] badMcRow [acmeMcRow]
     (by decide) (Or.inl (by decide)),
   carrier_coercion_failure_counted_failed [] badDotRow [acmeMcRow]
     (by decide) (Or.inr (by decide))⟩

/-! ## Idempotence of the carrier import (C1) -/

/-- The row reaches `cursor.execute` carrying a NULL `mcNumber` (the
one shape of row the ON CONFLICT policy cannot deduplicate). -/
def hasNullKeyInsert (r : CarrierRawRow) : Bool :=
  match normCarrierRow r with
  | CarrierRowResult.valid c => c.mcNumber.isNone
  | _ => false

theorem mcPresent_append (t : List CarrierRecord) (c : CarrierRecord) (m : String) :
    mcPresent (t ++ [c]) m = (mcPresent t m || decide (c.mcNumber = some m)) := by
  simp [mcPresent, List.any_append]

theorem mcPresent_insertCarrier_mono (c : CarrierRecord)
    {t : List CarrierRecord} {m : String} (h : mcPresent t m = true) :
    mcPresent (insertCarrier t c) m = true := by
  unfold insertCarrier
  cases hm : c.mcNumber with
  | none =>
      rw [mcPresent_append, h]
      rfl
  | some m' =>
      simp only []
      by_cases hp : mcPresent t m'
      · rw [if_pos hp]; exact h
      · rw [if_neg hp, mcPresent_append, h]; rfl

theorem mcPresent_insertCarrier_self {c : CarrierRecord} {m : String}
    (hm : c.mcNumber = some m) (t : List CarrierRecord) :
    mcPresent (insertCarrier t c) m = true := by
  unfold insertCarrier
  rw [hm]
  simp only []
  by_cases hp : mcPresent t m
  · rw [if_pos hp]; exact hp
  · rw [if_neg hp, mcPresent_append]
    simp [hm]

theorem insertCarrier_absorbed {c : CarrierRecord} {m : String}
    {t : List CarrierRecord} (hm : c.mcNumber = some m)
    (hp : mcPresent t m = true) : insertCarrier t c = t := by
  unfold insertCarrier
  rw [hm]
  simp only []
  exact if_pos hp

theorem mcPresent_carrierStep_mono (r : CarrierRawRow) {st : CarrierRunState}
    {m : String} (h : mcPresent st.table m = true) :
    mcPresent (carrierStep st r).table m = true := by
  unfold carrierStep
  cases hr : normCarrierRow r with
  | skipped => exact h
  | failed => exact h
  | valid c => exact mcPresent_insertCarrier_mono c h

theorem mcPresent_carrierRunFrom_mono (rows : List CarrierRawRow)
    {st : CarrierRunState} {m : String} (h : mcPresent st.table m = true) :
    mcPresent (carrierRunFrom st rows).table m = true := by
  induction rows generalizing st with
  | nil => exact h
  | cons r rest ih => exact ih (mcPresent_carrierStep_mono r h)

theorem key_established {rows : List CarrierRawRow} {r : CarrierRawRow}
    (hr : r ∈ rows) {c : CarrierRecord} {m : String}
    (hv : normCarrierRow r = CarrierRowResult.valid c)
    (hm : c.mcNumber = some m) :
    ∀ st : CarrierRunState, mcPresent (carrierRunFrom st rows).table m = true := by
  induction rows with
  | nil => cases hr
  | cons a rest ih =>
      intro st
      rcases List.mem_cons.mp hr with rfl | hr'
      · show mcPresent (carrierRunFrom (carrierStep st r) rest).table m = true
        apply mcPresent_carrierRunFrom_mono
        unfold carrierStep
        rw [hv]
        exact mcPresent_insertCarrier_self hm st.table
      · exact ih hr' (carrierStep st a)

theorem carrierRunFrom_stable {rows : List CarrierRawRow} :
    ∀ st : CarrierRunState,
      (∀ r ∈ rows, ∀ c : CarrierRecord,
        normCarrierRow r = CarrierRowResult.valid c →
        ∃ m, c.mcNumber = some m ∧ mcPresent st.table m = true) →
      (carrierRunFrom st rows).table = st.table := by
  induction rows with
  | nil => intro st _; rfl
  | cons a rest ih =>
      intro st h
      have hstep : (carrierStep st a).table = st.table := by
        unfold carrierStep
        cases ha : normCarrierRow a with
        | skipped => rfl
        | failed => rfl
        | valid c =>
            obtain ⟨m, hm, hp⟩ := h a (List.mem_cons_self a rest) c ha
            exact insertCarrier_absorbed hm hp
      have hrest : ∀ r ∈ rest, ∀ c : CarrierRecord,
          normCarrierRow r = CarrierRowResult.valid c →
          ∃ m, c.mcNumber = some m ∧ mcPresent (carrierStep st a).table m = true := by
        intro r hr c hc
        obtain ⟨m, hm, hp⟩ := h r (List.mem_cons_of_mem a hr) c hc
        exact ⟨m, hm, by rw [hstep]; exact hp⟩
      show (carrierRunFrom (carrierStep st a) rest).table = st.table
      rw [ih (carrierStep st a) hrest, hstep]

/-- Claim C1 counterexample: a valid row with a null MC Number and DOT
Number 7.  The first run persists one row; because PostgreSQL treats
NULL conflict-key values as distinct, the second identical run inserts
it again and the table ends with two rows, not one. -/
theorem carrier_import_not_idempotent_null_mc_cex :
    (runCarrierImport [] [dotOnlyRow]).table.length = 1 ∧
    (runCarrierImport (runCarrierImport [] [dotOnlyRow]).table [dotOnlyRow]).table.length
      = 2 := by
  decide

/-- Claim C1 (amended): loading the same carrier source twice leaves the
same row count as loading it once, provided no row of the source reaches
the insert with a null normalized `mcNumber` — rows whose MC Number cell
is null but whose DOT Number is present defeat the ON CONFLICT
deduplication (NULL keys never conflict) and are re-inserted by the
second run. -/
theorem carrier_import_idempotent_on_nonnull_keys
    (t : List CarrierRecord) (rows : List CarrierRawRow)
    (h : ∀ r ∈ rows, hasNullKeyInsert r = false) :
    (runCarrierImport (runCarrierImport t rows).table rows).table.length
      = (runCarrierImport t rows).table.length := by
  have hstable : (carrierRunFrom
      { table := (runCarrierImport t rows).table, succeeded := 0, failed := 0 }
      rows).table = (runCarrierImport t rows).table := by
    apply carrierRunFrom_stable
    intro r hr c hc
    have hz := h r hr
    unfold hasNullKeyInsert at hz
    rw [hc] at hz
    simp only [] at hz
    have hnn : c.mcNumber ≠ none := by
      intro heq
      rw [heq] at hz
      simp at hz
    obtain ⟨m, hm⟩ := Option.ne_none_iff_exists'.mp hnn
    exact ⟨m, hm, key_established hr hc hm { table := t, succeeded := 0, failed := 0 }⟩
  show (carrierRunFrom _ rows).table.length = _
  rw [hstable]

/-- Claim C1 witness: the amended theorem at the one-row source whose MC
Number is present — the second run leaves the single-row table alone. -/
theorem carrier_import_idempotent_on_nonnull_keys_witness :
    (runCarrierImport (runCarrierImport [] [acmeMcRow]).table [acmeMcRow]).table.length
      = (runCarrierImport [] [acmeMcRow]).table.length :=
  carrier_import_idempotent_on_nonnull_keys [] [acmeMcRow] (by decide)

end LtlImport
